import Mathlib

set_option maxRecDepth 40000

/-!
Verification of the radiative-cooling film estimator (Q1/Q1.py, Q2/Q2.py,
Q3/Q3_base_reality.py).

Conventions of the embedding:
* Python floats are modelled as exact rationals `ℚ`; emissivity values, which
  are produced by formulas involving `exp`, live in `ℝ` with `Real.exp`.
* Rational constants are written with `q n e`, denoting `n / 10 ^ e`,
  because `mkRat` reduces in the kernel while decimal literals do not.
* `np.pi` is modelled by its double-precision decimal value.
* Python's `x % 1` is `x - ⌊x⌋` (`pymod1`).
* `scipy.interpolate.interp1d(kind='linear', bounds_error=False,
  fill_value=(y_first, y_last))` is `interp1d` below: clamp to the first
  sample below the grid, to the last sample above it, and piecewise-linear
  interpolation in between.
-/

/-- Shorthand for the exact rational `n / 10 ^ e` (kernel-reducible). -/
def q (n : ℤ) (e : ℕ) : ℚ := mkRat n (10 ^ e)

/-- The double-precision value of `np.pi`, as an exact rational. -/
def np_pi : ℚ := q 3141592653589793 15

/-- Python's `x % 1` for a float `x`: `x - floor(x)`. -/
def pymod1 (x : ℚ) : ℚ := x - ⌊x⌋
/-- Tabulated PDMS wavelengths (μm) from `load_pdms_data`. -/
def wavelengths_real : List ℚ := [
  q 40 2, q 41 2, q 42 2, q 43 2, q 44 2, q 45 2, q 46 2, q 47 2,
  q 48 2, q 49 2, q 50 2, q 51 2, q 52 2, q 53 2, q 54 2, q 55 2,
  q 56 2, q 57 2, q 58 2, q 59 2, q 60 2, q 61 2, q 62 2, q 63 2,
  q 64 2, q 65 2, q 66 2, q 67 2, q 68 2, q 69 2, q 70 2, q 71 2,
  q 72 2, q 73 2, q 74 2, q 75 2, q 76 2, q 77 2, q 78 2, q 79 2,
  q 80 2, q 81 2, q 82 2, q 83 2, q 84 2, q 85 2, q 86 2, q 87 2,
  q 88 2, q 89 2, q 90 2, q 91 2, q 92 2, q 93 2, q 94 2, q 95 2,
  q 96 2, q 97 2, q 98 2, q 99 2, q 100 2, q 101 2, q 102 2, q 103 2,
  q 104 2, q 105 2, q 106 2, q 107 2, q 108 2, q 109 2, q 110 2, q 111 2,
  q 112 2, q 113 2, q 114 2, q 115 2, q 116 2, q 117 2, q 118 2, q 119 2,
  q 120 2, q 121 2, q 122 2, q 123 2, q 124 2, q 125 2, q 126 2, q 127 2,
  q 128 2, q 129 2, q 130 2, q 131 2, q 132 2, q 133 2, q 134 2, q 135 2,
  q 136 2, q 137 2, q 138 2, q 139 2, q 140 2, q 141 2, q 142 2, q 143 2,
  q 144 2, q 145 2, q 146 2, q 147 2, q 148 2, q 149 2, q 150 2, q 151 2,
  q 152 2, q 153 2, q 154 2, q 155 2, q 156 2, q 157 2, q 158 2, q 159 2,
  q 160 2, q 161 2, q 162 2, q 163 2, q 164 2, q 165 2, q 166 2, q 167 2,
  q 168 2, q 169 2, q 170 2, q 171 2, q 172 2, q 173 2, q 174 2, q 175 2,
  q 176 2, q 177 2, q 178 2, q 179 2, q 180 2, q 181 2, q 182 2, q 183 2,
  q 184 2, q 185 2, q 186 2, q 187 2, q 188 2, q 189 2, q 190 2, q 191 2,
  q 192 2, q 193 2, q 194 2, q 195 2, q 196 2, q 197 2, q 198 2, q 199 2,
  q 200 2, q 20097 4, q 20190 4, q 20285 4, q 20381 4, q 20478 4, q 20575 4, q 20673 4,
  q 20773 4, q 20873 4, q 20975 4, q 21077 4, q 21180 4, q 21285 4, q 21390 4, q 21496 4,
  q 21568 4, q 21676 4, q 21785 4, q 21896 4, q 21970 4, q 22082 4, q 22196 4, q 22272 4,
  q 22387 4, q 22465 4, q 22582 4, q 22661 4, q 22781 4, q 22861 4, q 22983 4, q 23065 4,
  q 23188 4, q 23272 4, q 23398 4, q 23482 4, q 23568 4, q 23697 4, q 23784 4, q 23872 4,
  q 23960 4, q 24093 4, q 24183 4, q 24274 4, q 24365 4, q 24457 4, q 24596 4, q 24690 4,
  q 24784 4, q 24880 4, q 24975 4, q 25072 4, q 25169 4, q 25268 4, q 25366 4, q 25466 4,
  q 25567 4, q 25668 4, q 25770 4, q 25873 4, q 25976 4, q 26081 4, q 26186 4, q 26293 4,
  q 26400 4, q 26454 4, q 26562 4, q 26671 4, q 26782 4, q 26893 4, q 26949 4, q 27061 4,
  q 27175 4, q 27289 4, q 27347 4, q 27462 4, q 27579 4, q 27697 4, q 27756 4, q 27876 4,
  q 27996 4, q 28057 4, q 28179 4, q 28240 4, q 28364 4, q 28489 4, q 28551 4, q 28678 4,
  q 28741 4, q 28869 4, q 28998 4, q 29063 4, q 29194 4, q 29260 4, q 29393 4, q 29460 4,
  q 29594 4, q 29662 4, q 29798 4, q 29867 4, q 29936 4, q 30075 4, q 30145 4, q 30286 4,
  q 30357 4, q 30499 4, q 30571 4, q 30644 4, q 30789 4, q 30863 4, q 30936 4, q 31085 4,
  q 31159 4, q 31234 4, q 31386 4, q 31462 4, q 31538 4, q 31693 4, q 31770 4, q 31848 4,
  q 31927 4, q 32085 4, q 32164 4, q 32244 4, q 32325 4, q 32487 4, q 32569 4, q 32651 4,
  q 32733 4, q 32899 4, q 32983 4, q 33067 4, q 33152 4, q 33237 4, q 33322 4, q 33494 4,
  q 33581 4, q 33668 4, q 33756 4, q 33844 4, q 33933 4, q 34022 4, q 34111 4, q 34292 4,
  q 34383 4, q 34474 4, q 34566 4, q 34658 4, q 34751 4, q 34845 4, q 34939 4, q 35033 4,
  q 35128 4, q 35224 4, q 35320 4, q 35416 4, q 35513 4, q 35611 4, q 35709 4, q 35807 4,
  q 35907 4, q 36006 4, q 36107 4, q 36207 4, q 36309 4, q 36411 4, q 36513 4, q 36617 4,
  q 36720 4, q 36825 4, q 36930 4, q 37035 4, q 37141 4, q 37248 4, q 37355 4, q 37463 4,
  q 37572 4, q 37681 4, q 37791 4, q 37901 4, q 38013 4, q 38124 4, q 38237 4, q 38350 4,
  q 38464 4, q 38578 4, q 38693 4, q 38809 4, q 38926 4, q 39043 4, q 39161 4, q 39280 4,
  q 39399 4, q 39519 4, q 39640 4, q 39762 4, q 39884 4, q 40007 4, q 40131 4, q 40255 4,
  q 40381 4, q 40507 4, q 40634 4, q 40762 4, q 40890 4, q 41020 4, q 41150 4, q 41281 4,
  q 41413 4, q 41546 4, q 41679 4, q 41814 4, q 41949 4, q 42085 4, q 42222 4, q 42360 4,
  q 42499 4, q 42639 4, q 42780 4, q 42921 4, q 43064 4, q 43208 4, q 43352 4, q 43498 4,
  q 43644 4, q 43791 4, q 43940 4, q 44089 4, q 44240 4, q 44391 4, q 44544 4, q 44697 4,
  q 44852 4, q 45008 4, q 45165 4, q 45323 4, q 45482 4, q 45642 4, q 45803 4, q 45965 4,
  q 46129 4, q 46294 4, q 46460 4, q 46627 4, q 46795 4, q 46965 4, q 47136 4, q 47308 4,
  q 47481 4, q 47655 4, q 47831 4, q 48008 4, q 48187 4, q 48367 4, q 48548 4, q 48730 4,
  q 48914 4, q 49100 4, q 49286 4, q 49474 4, q 49664 4, q 49855 4, q 50047 4, q 50241 4,
  q 50437 4, q 50634 4, q 50832 4, q 51033 4, q 51234 4, q 51438 4, q 51643 4, q 51849 4,
  q 52057 4, q 52267 4, q 52479 4, q 52692 4, q 52907 4, q 53124 4, q 53343 4, q 53563 4,
  q 53785 4, q 54009 4, q 54235 4, q 54463 4, q 54693 4, q 54925 4, q 55159 4, q 55394 4,
  q 55632 4, q 55872 4, q 56114 4, q 56358 4, q 56604 4, q 56852 4, q 57103 4, q 57355 4,
  q 57610 4, q 57867 4, q 58127 4, q 58389 4, q 58653 4, q 58919 4, q 59188 4, q 59460 4,
  q 59734 4, q 60011 4, q 60290 4, q 60571 4, q 60856 4, q 61143 4, q 61433 4, q 61725 4,
  q 62020 4, q 62319 4, q 62620 4, q 62924 4, q 63231 4, q 63541 4, q 63854 4, q 64170 4,
  q 64489 4, q 64811 4, q 65137 4, q 65466 4, q 65798 4, q 66134 4, q 66473 4, q 66816 4,
  q 67162 4, q 67512 4, q 67865 4, q 68223 4, q 68583 4, q 68948 4, q 69317 4, q 69690 4,
  q 70066 4, q 70447 4, q 70832 4, q 71221 4, q 71615 4, q 72013 4, q 72415 4, q 72822 4,
  q 73233 4, q 73649 4, q 74070 4, q 74496 4, q 74926 4, q 75362 4, q 75803 4, q 76249 4,
  q 76700 4, q 77156 4, q 77618 4, q 78086 4, q 78559 4, q 79038 4, q 79523 4, q 80014 4,
  q 80511 4, q 81014 4, q 81524 4, q 82040 4, q 82562 4, q 83091 4, q 83628 4, q 84171 4,
  q 84721 4, q 85278 4, q 85843 4, q 86415 4, q 86995 4, q 87583 4, q 88179 4, q 88783 4,
  q 89395 4, q 90016 4, q 90645 4, q 91284 4, q 91931 4, q 92588 4, q 93254 4, q 93930 4,
  q 94615 4, q 95311 4, q 96017 4, q 96733 4, q 97461 4, q 98199 4, q 98949 4, q 99710 4,
  q 10048 3, q 10127 3, q 10207 3, q 10288 3, q 10370 3, q 10453 3, q 10538 3, q 10625 3,
  q 10713 3, q 10802 3, q 10893 3, q 10985 3, q 11079 3, q 11174 3, q 11272 3, q 11370 3,
  q 11471 3, q 11573 3, q 11678 3, q 11784 3, q 11892 3, q 12002 3, q 12114 3, q 12229 3,
  q 12345 3, q 12464 3, q 12585 3, q 12708 3, q 12834 3, q 12962 3, q 13093 3, q 13227 3,
  q 13363 3, q 13502 3, q 13645 3, q 13790 3, q 13938 3, q 14089 3, q 14244 3, q 14403 3,
  q 14564 3, q 14730 3, q 14899 3, q 15072 3, q 15250 3, q 15431 3, q 15617 3, q 15808 3,
  q 16003 3, q 16203 3, q 16408 3, q 16618 3, q 16834 3, q 17056 3, q 17283 3, q 17517 3,
  q 17757 3, q 18003 3, q 18257 3, q 18518 3, q 18786 3, q 19062 3, q 19347 3, q 19640 3,
  q 19942 3]

def n_real : List ℚ := [
  q 141491 5, q 141403 5, q 141300 5, q 141179 5, q 141113 5, q 141033 5, q 140943 5, q 140866 5,
  q 140802 5, q 140733 5, q 140675 5, q 140614 5, q 140557 5, q 140513 5, q 140430 5, q 140420 5,
  q 140375 5, q 140338 5, q 140292 5, q 140259 5, q 140202 5, q 140158 5, q 140139 5, q 140121 5,
  q 140059 5, q 140047 5, q 140022 5, q 140006 5, q 139984 5, q 139958 5, q 139907 5, q 139905 5,
  q 139871 5, q 139817 5, q 139814 5, q 139765 5, q 139750 5, q 139727 5, q 139660 5, q 139645 5,
  q 139601 5, q 139617 5, q 139684 5, q 139701 5, q 139629 5, q 139687 5, q 139671 5, q 139652 5,
  q 139624 5, q 139629 5, q 139616 5, q 139610 5, q 139583 5, q 139584 5, q 139554 5, q 139546 5,
  q 139552 5, q 139537 5, q 139513 5, q 139506 5, q 139525 5, q 139523 5, q 139544 5, q 139121 5,
  q 139127 5, q 139181 5, q 139102 5, q 139193 5, q 139217 5, q 139220 5, q 139140 5, q 139202 5,
  q 139164 5, q 139084 5, q 139105 5, q 139087 5, q 139135 5, q 139134 5, q 139199 5, q 139145 5,
  q 139106 5, q 138948 5, q 139053 5, q 138988 5, q 138929 5, q 138975 5, q 138999 5, q 139049 5,
  q 139009 5, q 138910 5, q 138878 5, q 138850 5, q 138844 5, q 138895 5, q 138870 5, q 138897 5,
  q 138914 5, q 139000 5, q 138972 5, q 138923 5, q 138938 5, q 138836 5, q 138932 5, q 138933 5,
  q 138929 5, q 138840 5, q 138840 5, q 138895 5, q 138968 5, q 138914 5, q 138886 5, q 138844 5,
  q 138850 5, q 138804 5, q 138863 5, q 138922 5, q 138841 5, q 138815 5, q 138787 5, q 138755 5,
  q 138748 5, q 138731 5, q 138811 5, q 138725 5, q 138609 5, q 138759 5, q 138751 5, q 138797 5,
  q 138773 5, q 138719 5, q 138694 5, q 138755 5, q 138689 5, q 138756 5, q 138736 5, q 138736 5,
  q 138611 5, q 138703 5, q 138651 5, q 138645 5, q 138644 5, q 138680 5, q 138704 5, q 138639 5,
  q 138730 5, q 138712 5, q 138634 5, q 138571 5, q 138651 5, q 138631 5, q 138600 5, q 138610 5,
  q 138585 5, q 138623 5, q 138625 5, q 138571 5, q 138546 5, q 138623 5, q 138586 5, q 138653 5,
  q 138648 5, q 139924 5, q 139793 5, q 139715 5, q 139551 5, q 139481 5, q 139529 5, q 139562 5,
  q 139677 5, q 139707 5, q 139523 5, q 139490 5, q 139475 5, q 139453 5, q 139614 5, q 139796 5,
  q 139915 5, q 139923 5, q 139721 5, q 139679 5, q 139814 5, q 140006 5, q 140093 5, q 140083 5,
  q 139913 5, q 139783 5, q 139753 5, q 139782 5, q 139884 5, q 139983 5, q 139921 5, q 139840 5,
  q 139812 5, q 139817 5, q 139834 5, q 139873 5, q 139875 5, q 139769 5, q 139710 5, q 139638 5,
  q 139638 5, q 139737 5, q 139788 5, q 139844 5, q 139870 5, q 139872 5, q 139708 5, q 139680 5,
  q 139698 5, q 139703 5, q 139646 5, q 139605 5, q 139625 5, q 139632 5, q 139528 5, q 139446 5,
  q 139468 5, q 139547 5, q 139589 5, q 139548 5, q 139486 5, q 139458 5, q 139407 5, q 139401 5,
  q 139501 5, q 139538 5, q 139534 5, q 139507 5, q 139542 5, q 139518 5, q 139492 5, q 139514 5,
  q 139539 5, q 139509 5, q 139508 5, q 139535 5, q 139543 5, q 139596 5, q 139632 5, q 139618 5,
  q 139533 5, q 139520 5, q 139570 5, q 139604 5, q 139633 5, q 139575 5, q 139494 5, q 139319 5,
  q 139313 5, q 139458 5, q 139513 5, q 139478 5, q 139497 5, q 139484 5, q 139403 5, q 139363 5,
  q 139380 5, q 139377 5, q 139379 5, q 139366 5, q 139342 5, q 139390 5, q 139431 5, q 139431 5,
  q 139427 5, q 139371 5, q 139288 5, q 139204 5, q 139114 5, q 139119 5, q 139144 5, q 139225 5,
  q 139210 5, q 139168 5, q 139114 5, q 139112 5, q 139088 5, q 139129 5, q 139169 5, q 139173 5,
  q 139124 5, q 139036 5, q 138993 5, q 138921 5, q 138876 5, q 138817 5, q 138737 5, q 138650 5,
  q 138627 5, q 138658 5, q 138591 5, q 138448 5, q 138272 5, q 138100 5, q 137863 5, q 137097 5,
  q 136967 5, q 137687 5, q 139316 5, q 140866 5, q 141427 5, q 141184 5, q 140699 5, q 140079 5,
  q 140068 5, q 140129 5, q 140155 5, q 140126 5, q 140054 5, q 139949 5, q 139857 5, q 139804 5,
  q 139751 5, q 139708 5, q 139706 5, q 139677 5, q 139639 5, q 139644 5, q 139645 5, q 139613 5,
  q 139573 5, q 139526 5, q 139488 5, q 139425 5, q 139387 5, q 139371 5, q 139336 5, q 139299 5,
  q 139275 5, q 139279 5, q 139285 5, q 139292 5, q 139338 5, q 139353 5, q 139284 5, q 139221 5,
  q 139204 5, q 139178 5, q 139137 5, q 139117 5, q 139096 5, q 139052 5, q 139012 5, q 139015 5,
  q 139046 5, q 139035 5, q 138984 5, q 138949 5, q 138922 5, q 138909 5, q 138911 5, q 138899 5,
  q 138885 5, q 138895 5, q 138901 5, q 138868 5, q 138831 5, q 138835 5, q 138836 5, q 138825 5,
  q 138827 5, q 138831 5, q 138821 5, q 138796 5, q 138747 5, q 138699 5, q 138686 5, q 138674 5,
  q 138644 5, q 138645 5, q 138652 5, q 138611 5, q 138578 5, q 138612 5, q 138707 5, q 138743 5,
  q 138623 5, q 138489 5, q 138445 5, q 138487 5, q 138482 5, q 138393 5, q 138330 5, q 138299 5,
  q 138257 5, q 138213 5, q 138189 5, q 138216 5, q 138250 5, q 138217 5, q 138162 5, q 138145 5,
  q 138125 5, q 138079 5, q 138026 5, q 137972 5, q 137925 5, q 137880 5, q 137837 5, q 137807 5,
  q 137826 5, q 137878 5, q 137978 5, q 138045 5, q 138033 5, q 137971 5, q 137893 5, q 137851 5,
  q 137861 5, q 137872 5, q 137836 5, q 137783 5, q 137745 5, q 137699 5, q 137667 5, q 137645 5,
  q 137643 5, q 137627 5, q 137551 5, q 137478 5, q 137452 5, q 137413 5, q 137342 5, q 137301 5,
  q 137286 5, q 137230 5, q 137140 5, q 137101 5, q 137112 5, q 137151 5, q 137161 5, q 137116 5,
  q 137061 5, q 137010 5, q 136974 5, q 136945 5, q 136930 5, q 136857 5, q 136819 5, q 136785 5,
  q 136698 5, q 136623 5, q 136576 5, q 136563 5, q 136493 5, q 136400 5, q 136376 5, q 136366 5,
  q 136332 5, q 136268 5, q 136188 5, q 136124 5, q 136063 5, q 136017 5, q 135952 5, q 135851 5,
  q 135788 5, q 135756 5, q 135700 5, q 135636 5, q 135602 5, q 135546 5, q 135444 5, q 135327 5,
  q 135208 5, q 135141 5, q 135101 5, q 134985 5, q 134856 5, q 134770 5, q 134668 5, q 134572 5,
  q 134448 5, q 134381 5, q 134327 5, q 134257 5, q 134188 5, q 134096 5, q 133948 5, q 133844 5,
  q 133698 5, q 133518 5, q 133420 5, q 133287 5, q 133102 5, q 132961 5, q 132711 5, q 132364 5,
  q 132168 5, q 132053 5, q 131839 5, q 131494 5, q 131223 5, q 131191 5, q 131155 5, q 130835 5,
  q 130306 5, q 130038 5, q 130332 5, q 130790 5, q 130939 5, q 130643 5, q 130087 5, q 129479 5,
  q 128942 5, q 128363 5, q 127697 5, q 127066 5, q 126412 5, q 125650 5, q 124758 5, q 123651 5,
  q 122417 5, q 120747 5, q 118420 5, q 113872 5, q 106920 5, q 113086 5, q 131619 5, q 142903 5,
  q 138024 5, q 131925 5, q 128177 5, q 125491 5, q 123390 5, q 121820 5, q 120668 5, q 119571 5,
  q 118132 5, q 116258 5, q 114039 5, q 111398 5, q 107840 5, q 103705 5, q 99077 5, q 94243 5,
  q 90850 5, q 91694 5, q 99296 5, q 112582 5, q 127070 5, q 138675 5, q 146460 5, q 151165 5,
  q 153749 5, q 155207 5, q 156879 5, q 160177 5, q 166994 5, q 177468 5, q 185128 5, q 183876 5,
  q 177344 5, q 170999 5, q 166025 5, q 161895 5, q 158348 5, q 155340 5, q 152658 5, q 150134 5,
  q 147663 5, q 145099 5, q 142981 5, q 141565 5, q 139727 5, q 136630 5, q 132958 5, q 130103 5,
  q 130308 5, q 132585 5, q 133199 5, q 133215 5, q 133290 5, q 128572 5, q 123134 5, q 125325 5,
  q 137130 5, q 160462 5, q 186355 5, q 196263 5, q 189414 5, q 179653 5, q 173460 5, q 171230 5,
  q 169554 5, q 166481 5, q 163533 5, q 161279 5, q 159113 5, q 157651 5, q 157656 5, q 158157 5,
  q 158549 5, q 158457 5, q 157902 5, q 157898 5, q 157744 5, q 156572 5, q 155054 5, q 153957 5,
  q 153249 5, q 152491 5, q 151758 5, q 151612 5, q 151225 5, q 150642 5, q 150336 5, q 150038 5,
  q 149764 5, q 150001 5, q 150080 5, q 149350 5, q 149025 5, q 149254 5, q 149056 5, q 148533 5,
  q 148051 5]

def k_real : List ℚ := [
  q 140 8, q 138 8, q 138 8, q 140 8, q 140 8, q 141 8, q 142 8, q 143 8,
  q 143 8, q 146 8, q 146 8, q 147 8, q 148 8, q 148 8, q 149 8, q 151 8,
  q 150 8, q 153 8, q 155 8, q 154 8, q 157 8, q 157 8, q 157 8, q 158 8,
  q 158 8, q 159 8, q 158 8, q 159 8, q 160 8, q 160 8, q 161 8, q 162 8,
  q 163 8, q 164 8, q 169 8, q 166 8, q 165 8, q 167 8, q 167 8, q 167 8,
  q 169 8, q 170 8, q 172 8, q 173 8, q 162 8, q 176 8, q 170 8, q 222 8,
  q 234 8, q 239 8, q 232 8, q 231 8, q 279 8, q 260 8, q 258 8, q 232 8,
  q 278 8, q 263 8, q 245 8, q 256 8, q 288 8, q 226 8, q 261 8, q 254 8,
  q 244 8, q 238 8, q 247 8, q 252 8, q 257 8, q 276 8, q 270 8, q 240 8,
  q 266 8, q 285 8, q 342 8, q 481 8, q 484 8, q 534 8, q 110 7, q 146 7,
  q 475 8, q 387 8, q 370 8, q 300 8, q 289 8, q 300 8, q 304 8, q 316 8,
  q 319 8, q 311 8, q 314 8, q 311 8, q 312 8, q 325 8, q 354 8, q 413 8,
  q 543 8, q 945 8, q 979 8, q 114 7, q 142 7, q 124 7, q 787 8, q 699 8,
  q 605 8, q 511 8, q 512 8, q 510 8, q 303 8, q 534 8, q 584 8, q 690 8,
  q 780 8, q 785 8, q 798 8, q 783 8, q 728 8, q 595 8, q 523 8, q 501 8,
  q 504 8, q 517 8, q 553 8, q 614 8, q 767 8, q 977 8, q 102 7, q 108 7,
  q 181 7, q 725 7, q 597 7, q 322 7, q 216 7, q 396 7, q 703 7, q 741 7,
  q 346 7, q 228 7, q 278 7, q 236 7, q 126 7, q 926 8, q 887 8, q 139 7,
  q 197 7, q 229 7, q 135 7, q 820 8, q 743 8, q 787 8, q 845 8, q 883 8,
  q 957 8, q 101 7, q 108 7, q 111 7, q 125 7, q 145 7, q 142 7, q 140 7,
  q 131 7, q 120 7, q 123 7, q 103 7, q 101 7, q 951 9, q 881 8, q 839 8,
  q 830 8, q 851 8, q 899 8, q 964 8, q 105 7, q 120 7, q 142 7, q 173 7,
  q 196 7, q 238 7, q 298 7, q 383 7, q 446 7, q 546 7, q 648 7, q 702 7,
  q 763 7, q 803 7, q 848 7, q 859 7, q 861 7, q 863 7, q 877 7, q 890 7,
  q 891 7, q 867 7, q 838 7, q 849 7, q 879 7, q 929 7, q 952 7, q 955 7,
  q 951 7, q 940 7, q 905 7, q 879 7, q 900 7, q 957 7, q 998 7, q 993 7,
  q 986 7, q 980 7, q 974 7, q 951 7, q 913 7, q 886 7, q 874 7, q 869 7,
  q 880 7, q 920 7, q 970 7, q 100 6, q 103 6, q 106 6, q 108 6, q 108 6,
  q 108 6, q 108 6, q 109 6, q 109 6, q 108 6, q 109 6, q 110 6, q 111 6,
  q 112 6, q 114 6, q 114 6, q 114 6, q 113 6, q 115 6, q 116 6, q 116 6,
  q 117 6, q 118 6, q 119 6, q 119 6, q 120 6, q 121 6, q 121 6, q 122 6,
  q 121 6, q 121 6, q 121 6, q 121 6, q 122 6, q 122 6, q 122 6, q 122 6,
  q 124 6, q 124 6, q 123 6, q 124 6, q 126 6, q 126 6, q 125 6, q 125 6,
  q 127 6, q 130 6, q 131 6, q 132 6, q 133 6, q 133 6, q 133 6, q 135 6,
  q 137 6, q 139 6, q 140 6, q 140 6, q 140 6, q 139 6, q 137 6, q 137 6,
  q 138 6, q 142 6, q 145 6, q 146 6, q 145 6, q 146 6, q 147 6, q 149 6,
  q 151 6, q 151 6, q 148 6, q 147 6, q 148 6, q 150 6, q 100 5, q 807 5,
  q 186 4, q 319 4, q 383 4, q 313 4, q 183 4, q 836 5, q 355 5, q 333 5,
  q 463 5, q 456 5, q 300 5, q 145 5, q 105 5, q 163 6, q 163 6, q 164 6,
  q 165 6, q 167 6, q 166 6, q 165 6, q 167 6, q 170 6, q 169 6, q 170 6,
  q 171 6, q 170 6, q 169 6, q 170 6, q 171 6, q 173 6, q 176 6, q 175 6,
  q 174 6, q 175 6, q 178 6, q 180 6, q 181 6, q 182 6, q 181 6, q 178 6,
  q 179 6, q 182 6, q 170 6, q 143 6, q 119 6, q 102 6, q 886 7, q 794 7,
  q 728 7, q 683 7, q 653 7, q 636 7, q 630 7, q 636 7, q 656 7, q 692 7,
  q 742 7, q 817 7, q 942 7, q 115 6, q 146 6, q 178 6, q 165 6, q 129 6,
  q 102 6, q 845 7, q 740 7, q 674 7, q 632 7, q 605 7, q 590 7, q 587 7,
  q 593 7, q 607 7, q 628 7, q 653 7, q 677 7, q 699 7, q 722 7, q 761 7,
  q 806 7, q 841 7, q 887 7, q 950 7, q 103 6, q 111 6, q 120 6, q 131 6,
  q 145 6, q 159 6, q 173 6, q 187 6, q 198 6, q 209 6, q 219 6, q 226 6,
  q 226 6, q 227 6, q 224 6, q 225 6, q 233 6, q 237 6, q 236 6, q 235 6,
  q 233 6, q 232 6, q 234 6, q 236 6, q 234 6, q 235 6, q 240 6, q 238 6,
  q 239 6, q 242 6, q 245 6, q 249 6, q 249 6, q 245 6, q 245 6, q 249 6,
  q 247 6, q 250 6, q 253 6, q 258 6, q 261 6, q 263 6, q 258 6, q 255 6,
  q 264 6, q 260 6, q 258 6, q 262 6, q 263 6, q 265 6, q 260 6, q 260 6,
  q 267 6, q 280 6, q 272 6, q 269 6, q 276 6, q 274 6, q 271 6, q 267 6,
  q 282 6, q 280 6, q 281 6, q 277 6, q 277 6, q 276 6, q 282 6, q 284 6,
  q 279 6, q 281 6, q 277 6, q 279 6, q 291 6, q 290 6, q 279 6, q 277 6,
  q 282 6, q 295 6, q 291 6, q 282 6, q 275 6, q 285 6, q 294 6, q 307 6,
  q 303 6, q 294 6, q 502 6, q 399 6, q 238 6, q 484 6, q 109 5, q 121 5,
  q 951 6, q 120 5, q 110 5, q 576 6, q 339 6, q 313 6, q 394 6, q 460 6,
  q 713 6, q 717 6, q 491 6, q 519 6, q 260 6, q 584 6, q 776 6, q 603 6,
  q 589 6, q 678 6, q 142 5, q 257 5, q 435 5, q 658 5, q 704 5, q 648 5,
  q 861 5, q 137 4, q 180 4, q 167 4, q 121 4, q 740 5, q 483 5, q 347 5,
  q 307 5, q 287 5, q 311 5, q 312 5, q 259 5, q 252 5, q 396 5, q 605 5,
  q 777 5, q 938 5, q 147 4, q 293 4, q 171 3, q 331 3, q 332 3, q 174 3,
  q 540 4, q 273 4, q 243 4, q 283 4, q 356 4, q 449 4, q 522 4, q 581 4,
  q 632 4, q 679 4, q 741 4, q 841 4, q 102 3, q 131 3, q 175 3, q 240 3,
  q 337 3, q 469 3, q 602 3, q 688 3, q 705 3, q 671 3, q 616 3, q 562 3,
  q 519 3, q 491 3, q 483 3, q 491 3, q 496 3, q 453 3, q 334 3, q 194 3,
  q 106 3, q 635 4, q 421 4, q 312 4, q 252 4, q 208 4, q 183 4, q 181 4,
  q 182 4, q 214 4, q 313 4, q 401 4, q 413 4, q 466 4, q 675 4, q 112 3,
  q 167 3, q 193 3, q 202 3, q 222 3, q 227 3, q 244 3, q 343 3, q 489 3,
  q 640 3, q 721 3, q 609 3, q 361 3, q 174 3, q 102 3, q 896 4, q 848 4,
  q 627 4, q 422 4, q 349 4, q 334 4, q 387 4, q 518 4, q 628 4, q 642 4,
  q 606 4, q 530 4, q 468 4, q 400 4, q 285 4, q 197 4, q 194 4, q 216 4,
  q 207 4, q 186 4, q 212 4, q 241 4, q 232 4, q 241 4, q 307 4, q 356 4,
  q 387 4, q 399 4, q 402 4, q 426 4, q 438 4, q 441 4, q 457 4, q 447 4,
  q 420 4]

/-- Linear interpolation over a sorted grid `xs` with values `ys`, clamped to
the boundary samples outside the grid, as built by `load_pdms_data` via
`scipy.interpolate.interp1d(..., kind='linear', bounds_error=False,
fill_value=(ys.head, ys.last))`. -/
def interp1d (xs ys : List ℚ) (x : ℚ) : ℚ :=
  if x < xs.headD 0 then ys.headD 0
  else if xs.getLastD 0 < x then ys.getLastD 0
  else
    let i := xs.findIdx (fun w => decide (x ≤ w))
    if i = 0 then ys.headD 0
    else
      let x1 := xs.getD (i - 1) 0
      let x2 := xs.getD i 0
      let y1 := ys.getD (i - 1) 0
      let y2 := ys.getD i 0
      y1 + (y2 - y1) * (x - x1) / (x2 - x1)

/-- Interpolated refractive index `n` of PDMS (`self.n_interp`). -/
def n_interp (x : ℚ) : ℚ := interp1d wavelengths_real n_real x

/-- Interpolated extinction coefficient `k` of PDMS (`self.k_interp`). -/
def k_interp (x : ℚ) : ℚ := interp1d wavelengths_real k_real x

/-- Substrate type selected at model construction (`substrate_type`). -/
inductive SubstrateType
  | silicon
  | air
  | metal
deriving DecidableEq

/-- Correction method of `CorrectedPDMSModel` (`correction_method`); `none`
stands for any string other than `'literature'`, `'molecular'`, `'hybrid'`. -/
inductive CorrectionMethod
  | none
  | literature
  | molecular
  | hybrid
deriving DecidableEq

/-- The silicon-substrate regime model `PDMSFilmModel._silicon_substrate_model`. -/
noncomputable def silicon_substrate_model (wavelength thickness n k alpha : ℚ) : ℝ :=
  if 0.3 ≤ wavelength ∧ wavelength ≤ 2.5 then
    if thickness < 2 then
      if 0.2 ≤ pymod1 (n * thickness / wavelength) ∧
          pymod1 (n * thickness / wavelength) ≤ 0.3 then 0.15
      else 0.08
    else 0.05 + 0.05 * (1 - Real.exp (-(thickness : ℝ) / 50))
  else if 8 ≤ wavelength ∧ wavelength ≤ 13 then
    if 0.1 < k then
      if thickness < 5 then
        if 0.2 ≤ pymod1 (n * thickness / wavelength) ∧
            pymod1 (n * thickness / wavelength) ≤ 0.3 then 0.95
        else if 0.7 ≤ pymod1 (n * thickness / wavelength) ∧
            pymod1 (n * thickness / wavelength) ≤ 0.8 then 0.3
        else 0.6 + 0.3 * (1 - Real.exp (-(thickness : ℝ) / 3))
      else
        if 2 * (if 0 < alpha then 1 / alpha else 1000) < thickness then 0.92
        else 0.7 + 0.25 *
          (1 - Real.exp (-(thickness : ℝ) / ((if 0 < alpha then 1 / alpha else 1000 : ℚ) : ℝ)))
    else 0.3
  else 0.4 + 0.3 * (1 - Real.exp (-(thickness : ℝ) / 20))

/-- The air-substrate regime model `PDMSFilmModel._air_substrate_model`. -/
noncomputable def air_substrate_model (wavelength thickness n k alpha : ℚ) : ℝ :=
  if 0.3 ≤ wavelength ∧ wavelength ≤ 2.5 then
    0.03 + 0.02 * (1 - Real.exp (-(thickness : ℝ) / 100))
  else if 8 ≤ wavelength ∧ wavelength ≤ 13 then
    if 0.1 < k then
      if thickness < 10 then 0.6 + 0.3 * (1 - Real.exp (-(thickness : ℝ) / 8))
      else 0.88 + 0.07 * (1 - Real.exp (-(thickness : ℝ) / 30))
    else 0.3
  else 0.4

/-- The metal-substrate regime model `PDMSFilmModel._metal_substrate_model`. -/
noncomputable def metal_substrate_model (wavelength thickness n k alpha : ℚ) : ℝ :=
  if 0.3 ≤ wavelength ∧ wavelength ≤ 2.5 then
    0.02 + 0.03 * (1 - Real.exp (-(thickness : ℝ) / 50))
  else if 8 ≤ wavelength ∧ wavelength ≤ 13 then
    if 0.1 < k then
      if thickness < 5 then
        if 0.2 ≤ pymod1 (n * thickness / wavelength) ∧
            pymod1 (n * thickness / wavelength) ≤ 0.3 then 0.9
        else 0.2
      else 0.85 + 0.1 * (1 - Real.exp (-(thickness : ℝ) / 20))
    else 0.1
  else 0.3

/-- The base estimator `PDMSFilmModel.calculate_emissivity_physical_model`:
interpolate the optical constants, dispatch on the substrate, clip to
`[0, 0.98]` (`np.clip(base_emissivity, 0.0, 0.98)`). -/
noncomputable def calculate_emissivity_physical_model
    (substrate : SubstrateType) (wavelength thickness : ℚ) : ℝ :=
  let n := n_interp wavelength
  let k := k_interp wavelength
  let alpha := if 0 < wavelength then 4 * np_pi * k / wavelength else 0
  let base :=
    match substrate with
    | .silicon => silicon_substrate_model wavelength thickness n k alpha
    | .air => air_substrate_model wavelength thickness n k alpha
    | .metal => metal_substrate_model wavelength thickness n k alpha
  min (max base 0) 0.98

/-- The correction `CorrectedPDMSModel._literature_correction`. -/
noncomputable def literature_correction (wavelength thickness : ℚ) (base_epsilon : ℝ) : ℝ :=
  if 8 ≤ wavelength ∧ wavelength ≤ 13 then
    let lo : ℝ := if wavelength ≤ 10 then 0.85 else 0.88
    let hi : ℝ := if wavelength ≤ 10 then 0.92 else 0.95
    let target := lo + (base_epsilon - 0.3) / (0.7 - 0.3) * (hi - lo)
    if thickness < 3 then
      (thickness : ℝ) / 3 * target + (1 - (thickness : ℝ) / 3) * base_epsilon
    else target
  else if 0.3 ≤ wavelength ∧ wavelength ≤ 2.5 then base_epsilon * 0.9
  else base_epsilon

/-- The correction `CorrectedPDMSModel._molecular_correction`: two Gaussian
absorption peaks at 9.0 and 12.5 μm plus a thickness saturation, capped at 0.95. -/
noncomputable def molecular_correction (wavelength thickness : ℚ) (base_epsilon : ℝ) : ℝ :=
  let enhancement : ℝ := 1 + 0.4 * Real.exp (-0.5 * (((wavelength : ℝ) - 9) / 1) ^ 2)
      + 0.3 * Real.exp (-0.5 * (((wavelength : ℝ) - 12.5) / 1) ^ 2)
  let thickness_factor : ℝ := 1 + 0.25 * (1 - Real.exp (-(thickness : ℝ) / 5))
  min 0.95 (base_epsilon * enhancement * thickness_factor)

/-- The nearest literature calibration anchor used by
`CorrectedPDMSModel._hybrid_correction` (`min(points, key=distance)`,
first minimum wins). -/
def nearest_anchor (wavelength : ℚ) : ℚ × ℚ :=
  [((10 : ℚ), (0.90 : ℚ)), (12, 0.92), (15, 0.40)].foldl
    (fun best p => if |p.1 - wavelength| < |best.1 - wavelength| then p else best)
    ((0.5 : ℚ), (0.04 : ℚ))

/-- The correction `CorrectedPDMSModel._hybrid_correction`: molecular correction
then an exponential-distance blend toward the nearest literature anchor. -/
noncomputable def hybrid_correction (wavelength thickness : ℚ) (base_epsilon : ℝ) : ℝ :=
  let molecular_corrected := molecular_correction wavelength thickness base_epsilon
  let anchor := nearest_anchor wavelength
  let weight : ℝ := Real.exp (-((|wavelength - anchor.1| : ℚ) : ℝ) / 2)
  weight * (anchor.2 : ℝ) + (1 - weight) * molecular_corrected

/-- `CorrectedPDMSModel.calculate_emissivity_physical_model`: the base
estimator's (clipped) value, refined by the selected correction method. -/
noncomputable def corrected_calculate_emissivity
    (method : CorrectionMethod) (substrate : SubstrateType) (wavelength thickness : ℚ) : ℝ :=
  let base_epsilon := calculate_emissivity_physical_model substrate wavelength thickness
  match method with
  | .literature => literature_correction wavelength thickness base_epsilon
  | .molecular => molecular_correction wavelength thickness base_epsilon
  | .hybrid => hybrid_correction wavelength thickness base_epsilon
  | .none => base_epsilon

/-- `LiteratureCalibratedPDMSModel.calculate_emissivity` (built on the hybrid
corrected silicon model, the defaults used by `enhanced_main_analysis` and Q2):
inside the window band, blend toward the literature target 0.92 and cap at 0.95. -/
noncomputable def calibrated_calculate_emissivity (wavelength thickness : ℚ) : ℝ :=
  let base_epsilon := corrected_calculate_emissivity .hybrid .silicon wavelength thickness
  if 8 ≤ wavelength ∧ wavelength ≤ 13 then
    if thickness < 5 then
      min ((thickness : ℝ) / 5 * 0.92 + (1 - (thickness : ℝ) / 5) * base_epsilon) 0.95
    else min ((0.92 : ℝ) - 0.02) 0.95
  else base_epsilon

/-- `np.linspace a b n`: `n` equally spaced samples, both endpoints included. -/
def linspace (a b : ℚ) (n : ℕ) : List ℚ :=
  (List.range n).map (fun i => a + (b - a) * i / ((n : ℚ) - 1))

/-- `calculate_band_emissivity(lambda_min, lambda_max, thickness, n_points=30)`:
the arithmetic mean of the emissivity over `n_points` sampled wavelengths.
The emissivity function is a parameter because Python dispatches
`self.calculate_emissivity` dynamically. -/
noncomputable def calculate_band_emissivity
    (emissivity : ℚ → ℚ → ℝ) (lambda_min lambda_max thickness : ℚ) (n_points : ℕ) : ℝ :=
  (((linspace lambda_min lambda_max n_points).map
    (fun wl => emissivity wl thickness)).sum) / (n_points : ℝ)

/-- The selectivity computed by `thickness_optimization` (and by Q2's
`calculate_net_cooling_literature_based`): window-band emissivity over the
solar-band emissivity floored at 0.01, for the calibrated model. -/
noncomputable def optimization_selectivity (thickness : ℚ) : ℝ :=
  calculate_band_emissivity calibrated_calculate_emissivity 8 13 thickness 30 /
    max (calculate_band_emissivity calibrated_calculate_emissivity 0.3 2.5 thickness 30) 0.01

/-- An environment profile of `LiteratureBasedRadiativeCoolingEvaluator`
(`T_amb`, `T_sky`, `G_sun_total`, `wind_speed`). -/
structure EnvironmentProfile where
  T_amb : ℚ
  T_sky : ℚ
  G_sun_total : ℚ
  wind_speed : ℚ

/-- The reference profile `'temperate_summer'` (the Zhai et al. baseline). -/
def temperate_summer : EnvironmentProfile := ⟨300, 275, 800, 1⟩

/-- `calculate_environment_adjustment`: temperature, solar and wind factors
relative to the reference conditions, with the product clamped by
`max(0.3, min(adjustment, 1.5))`. -/
def calculate_environment_adjustment (env : EnvironmentProfile) : ℚ :=
  let temp_factor := (env.T_amb ^ 4 - env.T_sky ^ 4) / ((300 : ℚ) ^ 4 - 275 ^ 4)
  let solar_factor := 1 - 0.0005 * (env.G_sun_total - 800)
  let wind_factor := 1 - 0.05 * (env.wind_speed - 1)
  max 0.3 (min (temp_factor * solar_factor * wind_factor) 1.5)

/-- The literature anchor table of `self.literature_performance`:
(thickness in μm, cooling power in W/m², temperature drop in K). -/
def literature_thickness_anchors : List (ℚ × ℚ × ℚ) :=
  [(1, 45, 4.5), (5, 78, 7.2), (10, 93, 8.2), (20, 85, 7.5), (50, 65, 5.8)]

/-- The bracketing scan of `get_literature_performance`: the first pair of
consecutive anchors enclosing the thickness gives the linear interpolation;
`none` models the Python `NameError` when no bracket is found. -/
def bracket_lookup : List (ℚ × ℚ × ℚ) → ℚ → Option (ℚ × ℚ)
  | (t1, p1, d1) :: (t2, p2, d2) :: rest, t =>
      if t1 ≤ t ∧ t ≤ t2 then
        some (p1 + (t - t1) / (t2 - t1) * (p2 - p1),
              d1 + (t - t1) / (t2 - t1) * (d2 - d1))
      else bracket_lookup ((t2, p2, d2) :: rest) t
  | _, _ => none

/-- `get_literature_performance(thickness)`: clamp below the smallest anchor
(1 μm) and above the largest (50 μm), linear interpolation in between.
Returns (base cooling power, base temperature drop). -/
def get_literature_performance (thickness : ℚ) : Option (ℚ × ℚ) :=
  if thickness ≤ 1 then some (45, 4.5)
  else if 50 ≤ thickness then some (65, 5.8)
  else bracket_lookup literature_thickness_anchors thickness

/-- The `P_net` field of `calculate_net_cooling_literature_based`:
`max(0, base_cooling * env_adjustment)`. -/
def calculate_net_cooling_P_net (thickness : ℚ) (env : EnvironmentProfile) : Option ℚ :=
  (get_literature_performance thickness).map
    (fun p => max 0 (p.1 * calculate_environment_adjustment env))

/-- Materials of the Q3 multilayer catalogue. -/
inductive Material
  | Ag
  | Al
  | SiO2
  | TiO2
  | PDMS
deriving DecidableEq

/-- The per-layer-count enhancement table `literature_enhancement` of
`PhysicsBasedMultiLayerDesign.estimate_cooling_power` (`.get(n, 1.0)`). -/
def literature_enhancement (n : ℕ) : ℚ :=
  if n = 1 then 1
  else if n = 2 then 1.15
  else if n = 3 then 1.35
  else if n = 4 then 1.45
  else if n = 5 then 1.55
  else 1

/-- `PhysicsBasedMultiLayerDesign.estimate_cooling_power(structure)`:
the single-layer baseline 101.1 W/m² scaled by the enhancement factor for
the number of layers. -/
def estimate_cooling_power (s : List (Material × ℚ)) : ℚ :=
  101.1 * literature_enhancement s.length

/-- The 1-layer catalogue stack of `LayerNumberOptimizer.typical_structures`. -/
def typical_structure_1 : List (Material × ℚ) := [(Material.PDMS, 11000)]

/-- The 3-layer catalogue stack of `LayerNumberOptimizer.typical_structures`. -/
def typical_structure_3 : List (Material × ℚ) :=
  [(Material.Ag, 100), (Material.SiO2, 250), (Material.PDMS, 11000)]

/-- C2: at thickness 10 μm and the reference profile (300 K, 275 K, 800 W/m²,
1 m/s wind) the environment adjustment is exactly 1, the literature lookup
gives exactly the (93 W/m², 8.2 K) anchor, and the returned `P_net` is
exactly 93 W/m². -/
theorem reference_profile_net_cooling :
    calculate_environment_adjustment temperate_summer = 1 ∧
    get_literature_performance 10 = some (93, 8.2) ∧
    calculate_net_cooling_P_net 10 temperate_summer = some 93 := by
  refine ⟨?_, ?_, ?_⟩
  · norm_num [calculate_environment_adjustment, temperate_summer, min_def, max_def]
  · norm_num [get_literature_performance, bracket_lookup, literature_thickness_anchors]
  · norm_num [calculate_net_cooling_P_net, get_literature_performance, bracket_lookup,
      literature_thickness_anchors, calculate_environment_adjustment, temperate_summer,
      min_def, max_def]

/-- C4: for every environment profile the adjustment factor is clamped to
`[0.3, 1.5]`. -/
theorem environment_adjustment_clamped (env : EnvironmentProfile) :
    0.3 ≤ calculate_environment_adjustment env ∧
    calculate_environment_adjustment env ≤ 1.5 := by
  unfold calculate_environment_adjustment
  exact ⟨le_max_left _ _, max_le (by norm_num) (min_le_right _ _)⟩

/-- C5: the 3-layer catalogue stack's estimated cooling power is the 1-layer
baseline (101.1 W/m²) times the 3-layer enhancement factor 1.35, i.e. exactly
136.485 W/m². -/
theorem three_layer_cooling_power :
    estimate_cooling_power typical_structure_3 =
      estimate_cooling_power typical_structure_1 * 1.35 ∧
    estimate_cooling_power typical_structure_3 = 136.485 := by
  norm_num [estimate_cooling_power, typical_structure_1, typical_structure_3,
    literature_enhancement]

/-- C6: with correction method `none`, the corrected model returns exactly the
base estimator's value for every input. -/
theorem correction_none_is_base
    (substrate : SubstrateType) (wavelength thickness : ℚ) :
    corrected_calculate_emissivity .none substrate wavelength thickness =
      calculate_emissivity_physical_model substrate wavelength thickness := rfl

/-- C9: the multilayer cooling-power estimate depends only on the number of
layers, and any layer count outside 1–5 falls back to the 101.1 W/m²
baseline. -/
theorem cooling_power_depends_only_on_length :
    (∀ s1 s2 : List (Material × ℚ), s1.length = s2.length →
      estimate_cooling_power s1 = estimate_cooling_power s2) ∧
    (∀ s : List (Material × ℚ), s.length = 0 ∨ 5 < s.length →
      estimate_cooling_power s = 101.1) := by
  constructor
  · intro s1 s2 h
    unfold estimate_cooling_power
    rw [h]
  · intro s h
    unfold estimate_cooling_power
    have he : literature_enhancement s.length = 1 := by
      unfold literature_enhancement
      split_ifs <;> first | rfl | (exfalso; omega)
    rw [he]
    norm_num

/-- Witness for C9 at concrete stacks. -/
theorem cooling_power_depends_only_on_length_witness :
    estimate_cooling_power [(Material.PDMS, 1)] =
      estimate_cooling_power [(Material.Ag, 2)] ∧
    estimate_cooling_power [] = 101.1 :=
  ⟨cooling_power_depends_only_on_length.1 _ _ rfl,
   cooling_power_depends_only_on_length.2 [] (Or.inl rfl)⟩

/-- C10: for every thickness the literature lookup succeeds and returns a base
cooling power in `[45, 93]` W/m² and a base temperature drop in `[4.5, 8.2]` K. -/
theorem literature_performance_bounded (t : ℚ) :
    ∃ p d, get_literature_performance t = some (p, d) ∧
      45 ≤ p ∧ p ≤ 93 ∧ 4.5 ≤ d ∧ d ≤ 8.2 := by
  unfold get_literature_performance
  split_ifs with h1 h2
  · exact ⟨45, 4.5, rfl, by norm_num⟩
  · exact ⟨65, 5.8, rfl, by norm_num⟩
  · push_neg at h1 h2
    simp only [literature_thickness_anchors, bracket_lookup]
    split_ifs with b1 b2 b3 b4
    · exact ⟨_, _, rfl, by constructor <;> [linarith [b1.1, b1.2]; skip] <;>
        refine ⟨by linarith [b1.1, b1.2], by linarith [b1.1, b1.2],
          by linarith [b1.1, b1.2]⟩⟩
    · exact ⟨_, _, rfl, by obtain ⟨x1, x2⟩ := b2; refine ⟨by linarith, by linarith,
        by linarith, by linarith⟩⟩
    · exact ⟨_, _, rfl, by obtain ⟨x1, x2⟩ := b3; refine ⟨by linarith, by linarith,
        by linarith, by linarith⟩⟩
    · exact ⟨_, _, rfl, by obtain ⟨x1, x2⟩ := b4; refine ⟨by linarith, by linarith,
        by linarith, by linarith⟩⟩
    · exfalso
      rcases not_and_or.mp b1 with hb | hb <;> rcases not_and_or.mp b2 with hc | hc <;>
        rcases not_and_or.mp b3 with hd | hd <;> rcases not_and_or.mp b4 with he | he <;>
        push_neg at hb hc hd he <;> linarith

/-- Value of the `q` shorthand as a division. -/
theorem q_def (n : ℤ) (e : ℕ) : q n e = (n : ℚ) / 10 ^ e := by
  rw [q, Rat.mkRat_eq_divInt, Rat.divInt_eq_div]
  push_cast
  ring

/-- First tabulated wavelength. -/
theorem wavelengths_head : wavelengths_real.headD 0 = q 40 2 := by decide

/-- Last tabulated wavelength. -/
theorem wavelengths_last : wavelengths_real.getLastD 0 = q 19942 3 := by decide

/-- First and last tabulated refractive indices. -/
theorem n_real_ends : n_real.headD 0 = q 141491 5 ∧ n_real.getLastD 0 = q 148051 5 := by
  constructor <;> decide

/-- First and last tabulated extinction coefficients. -/
theorem k_real_ends : k_real.headD 0 = q 140 8 ∧ k_real.getLastD 0 = q 420 4 := by
  constructor <;> decide

/-- C3: below the smallest tabulated wavelength (0.40 μm) the interpolation
returns exactly the first sample `(n, k) = (1.41491, 1.40e-6)`, and above the
largest (19.942 μm) exactly the last sample `(1.48051, 0.042)`; no
extrapolation and no error. -/
theorem interpolation_clamps_to_boundary_samples :
    (∀ x : ℚ, x < 0.40 → n_interp x = 1.41491 ∧ k_interp x = 1.40e-6) ∧
    (∀ x : ℚ, 19.942 < x → n_interp x = 1.48051 ∧ k_interp x = 0.042) := by
  have h40 : (0.40 : ℚ) = q 40 2 := by rw [q_def]; norm_num
  have h19 : (19.942 : ℚ) = q 19942 3 := by rw [q_def]; norm_num
  constructor
  · intro x hx
    rw [h40] at hx
    constructor
    · rw [n_interp, interp1d, wavelengths_head, if_pos hx, n_real_ends.1, q_def]
      norm_num
    · rw [k_interp, interp1d, wavelengths_head, if_pos hx, k_real_ends.1, q_def]
      norm_num
  · intro x hx
    rw [h19] at hx
    have hx0 : ¬ x < q 40 2 := by
      rw [q_def] at hx ⊢
      push_neg
      norm_num at hx ⊢
      linarith
    constructor
    · rw [n_interp, interp1d, wavelengths_head, if_neg hx0, wavelengths_last,
        if_pos hx, n_real_ends.2, q_def]
      norm_num
    · rw [k_interp, interp1d, wavelengths_head, if_neg hx0, wavelengths_last,
        if_pos hx, k_real_ends.2, q_def]
      norm_num

/-- Witness for C3 at the concrete wavelengths 0.3 μm and 100 μm. -/
theorem interpolation_clamps_witness :
    ((0.3 : ℚ) < 0.40 ∧ n_interp 0.3 = 1.41491) ∧
    ((19.942 : ℚ) < 100 ∧ k_interp 100 = 0.042) :=
  ⟨⟨by norm_num, (interpolation_clamps_to_boundary_samples.1 0.3 (by norm_num)).1⟩,
   ⟨by norm_num, (interpolation_clamps_to_boundary_samples.2 100 (by norm_num)).2⟩⟩

/-- C7: in the silicon window-band thin-film branch (8 ≤ λ ≤ 13, k > 0.1,
thickness < 5), a fractional quarter-wave term of exactly 0.2 or exactly 0.3
lands in the inclusive destructive-interference branch and returns 0.95. -/
theorem quarter_wave_boundaries_inclusive
    (wavelength thickness n k alpha : ℚ)
    (h8 : 8 ≤ wavelength) (h13 : wavelength ≤ 13) (hk : 0.1 < k) (ht : thickness < 5)
    (hq : pymod1 (n * thickness / wavelength) = 0.2 ∨
          pymod1 (n * thickness / wavelength) = 0.3) :
    silicon_substrate_model wavelength thickness n k alpha = 0.95 := by
  unfold silicon_substrate_model
  rw [if_neg (by rintro ⟨-, h2⟩; linarith), if_pos ⟨h8, h13⟩, if_pos hk, if_pos ht,
    if_pos (by rcases hq with h | h <;> rw [h] <;> norm_num)]

/-- Witness for C7 at λ = 10 μm, thickness 2 μm, n = 1, k = 0.2. -/
theorem quarter_wave_boundaries_witness :
    silicon_substrate_model 10 2 1 0.2 0 = 0.95 := by
  apply quarter_wave_boundaries_inclusive 10 2 1 0.2 0 (by norm_num) (by norm_num)
    (by norm_num) (by norm_num)
  left
  have hf : ⌊(1 * 2 / 10 : ℚ)⌋ = 0 := by
    rw [Int.floor_eq_zero_iff]
    constructor <;> norm_num
  rw [pymod1, hf]
  norm_num

/-- The base estimator is clipped to `[0, 0.98]` for every input. -/
theorem base_emissivity_bounds (substrate : SubstrateType) (wavelength thickness : ℚ) :
    0 ≤ calculate_emissivity_physical_model substrate wavelength thickness ∧
    calculate_emissivity_physical_model substrate wavelength thickness ≤ 0.98 :=
  ⟨le_min (le_max_right _ _) (by norm_num), min_le_right _ _⟩

/-- Bounds of a convex blend of two values of `[0, 1]`. -/
theorem blend_bounds (c x y : ℝ) (hc0 : 0 ≤ c) (hc1 : c ≤ 1)
    (hx0 : 0 ≤ x) (hx1 : x ≤ 1) (hy0 : 0 ≤ y) (hy1 : y ≤ 1) :
    0 ≤ c * x + (1 - c) * y ∧ c * x + (1 - c) * y ≤ 1 := by
  constructor
  · exact add_nonneg (mul_nonneg hc0 hx0) (mul_nonneg (by linarith) hy0)
  · nlinarith

/-- The molecular correction stays in `[0, 0.95]` for nonnegative thickness and
nonnegative base value. -/
theorem molecular_correction_bounds (wavelength thickness : ℚ) (ht : 0 ≤ thickness)
    (b : ℝ) (hb : 0 ≤ b) :
    0 ≤ molecular_correction wavelength thickness b ∧
    molecular_correction wavelength thickness b ≤ 0.95 := by
  simp only [molecular_correction]
  refine ⟨le_min (by norm_num) ?_, min_le_left _ _⟩
  have htR : (0 : ℝ) ≤ (thickness : ℝ) := by exact_mod_cast ht
  have h2 : Real.exp (-(thickness : ℝ) / 5) ≤ 1 := by
    rw [Real.exp_le_one_iff]
    linarith
  have h1 : (0 : ℝ) ≤ 1 + 0.4 * Real.exp (-0.5 * (((wavelength : ℝ) - 9) / 1) ^ 2)
      + 0.3 * Real.exp (-0.5 * (((wavelength : ℝ) - 12.5) / 1) ^ 2) := by positivity
  have h3 : (0 : ℝ) ≤ 1 + 0.25 * (1 - Real.exp (-(thickness : ℝ) / 5)) := by nlinarith
  exact mul_nonneg (mul_nonneg hb h1) h3

/-- The nearest hybrid calibration anchor always carries a target value in
`[0, 0.92]`. -/
theorem nearest_anchor_bounds (wavelength : ℚ) :
    0 ≤ (nearest_anchor wavelength).2 ∧ (nearest_anchor wavelength).2 ≤ 0.92 := by
  unfold nearest_anchor
  simp only [List.foldl_cons, List.foldl_nil]
  split_ifs <;> constructor <;> norm_num

/-- The hybrid correction stays in `[0, 0.95]` for nonnegative thickness and
nonnegative base value. -/
theorem hybrid_correction_bounds (wavelength thickness : ℚ) (ht : 0 ≤ thickness)
    (b : ℝ) (hb : 0 ≤ b) :
    0 ≤ hybrid_correction wavelength thickness b ∧
    hybrid_correction wavelength thickness b ≤ 0.95 := by
  obtain ⟨hm0, hm95⟩ := molecular_correction_bounds wavelength thickness ht b hb
  obtain ⟨ha0, ha92⟩ := nearest_anchor_bounds wavelength
  simp only [hybrid_correction]
  have hw0 : (0 : ℝ) <
      Real.exp (-((|wavelength - (nearest_anchor wavelength).1| : ℚ) : ℝ) / 2) :=
    Real.exp_pos _
  have hw1 : Real.exp (-((|wavelength - (nearest_anchor wavelength).1| : ℚ) : ℝ) / 2) ≤ 1 := by
    rw [Real.exp_le_one_iff]
    have habs : (0 : ℝ) ≤ ((|wavelength - (nearest_anchor wavelength).1| : ℚ) : ℝ) := by
      exact_mod_cast abs_nonneg _
    linarith
  have ha0R : (0 : ℝ) ≤ ((nearest_anchor wavelength).2 : ℝ) := by exact_mod_cast ha0
  have ha95R : ((nearest_anchor wavelength).2 : ℝ) ≤ 0.95 := by
    have : ((nearest_anchor wavelength).2 : ℝ) ≤ ((0.92 : ℚ) : ℝ) := by exact_mod_cast ha92
    have h92 : ((0.92 : ℚ) : ℝ) ≤ 0.95 := by norm_num
    linarith
  constructor
  · exact add_nonneg (mul_nonneg hw0.le ha0R) (mul_nonneg (by linarith) hm0)
  · nlinarith [mul_le_mul_of_nonneg_left ha95R hw0.le,
      mul_le_mul_of_nonneg_left hm95 (by linarith : (0 : ℝ) ≤
        1 - Real.exp (-((|wavelength - (nearest_anchor wavelength).1| : ℚ) : ℝ) / 2))]

/-- The literature correction stays in `[0, 1]` whenever the thickness is
positive and the base value is in the clipped range `[0, 0.98]`. -/
theorem literature_correction_bounds (wavelength thickness : ℚ) (ht : 0 < thickness)
    (b : ℝ) (hb0 : 0 ≤ b) (hb98 : b ≤ 0.98) :
    0 ≤ literature_correction wavelength thickness b ∧
    literature_correction wavelength thickness b ≤ 1 := by
  have htR : (0 : ℝ) < (thickness : ℝ) := by exact_mod_cast ht
  have e85 : (0.85 : ℝ) + (b - 0.3) / (0.7 - 0.3) * (0.92 - 0.85) = 0.7975 + 0.175 * b := by
    ring
  have e88 : (0.88 : ℝ) + (b - 0.3) / (0.7 - 0.3) * (0.95 - 0.88) = 0.8275 + 0.175 * b := by
    ring
  simp only [literature_correction]
  split_ifs with hwin ht3 h10a h10b hsolar
  · rw [e85]
    have ht3R : (thickness : ℝ) < 3 := by exact_mod_cast ht3
    exact blend_bounds _ _ _ (by positivity) (by linarith) (by linarith) (by linarith)
      hb0 (by linarith)
  · rw [e88]
    have ht3R : (thickness : ℝ) < 3 := by exact_mod_cast ht3
    exact blend_bounds _ _ _ (by positivity) (by linarith) (by linarith) (by linarith)
      hb0 (by linarith)
  · rw [e85]
    exact ⟨by linarith, by linarith⟩
  · rw [e88]
    exact ⟨by linarith, by linarith⟩
  · exact ⟨mul_nonneg hb0 (by norm_num), by linarith⟩
  · exact ⟨hb0, by linarith⟩

/-- C1 (amended): for every correction method, substrate, wavelength > 0 and
thickness > 0 the returned emissivity lies in `[0, 1]`, and it lies in
`[0, 0.98]` for every method except `literature` (whose window-band remap can
exceed 0.98; see the counterexample). -/
theorem emissivity_with_corrections_bounds
    (method : CorrectionMethod) (substrate : SubstrateType) (wavelength thickness : ℚ)
    (hw : 0 < wavelength) (ht : 0 < thickness) :
    (0 ≤ corrected_calculate_emissivity method substrate wavelength thickness ∧
     corrected_calculate_emissivity method substrate wavelength thickness ≤ 1) ∧
    (method ≠ CorrectionMethod.literature →
     corrected_calculate_emissivity method substrate wavelength thickness ≤ 0.98) := by
  obtain ⟨hb0, hb98⟩ := base_emissivity_bounds substrate wavelength thickness
  cases method with
  | none => exact ⟨⟨hb0, hb98.trans (by norm_num)⟩, fun _ => hb98⟩
  | literature =>
      obtain ⟨h0, h1⟩ := literature_correction_bounds wavelength thickness ht _ hb0 hb98
      exact ⟨⟨h0, h1⟩, fun h => absurd rfl h⟩
  | molecular =>
      obtain ⟨h0, h95⟩ := molecular_correction_bounds wavelength thickness ht.le _ hb0
      exact ⟨⟨h0, h95.trans (by norm_num)⟩, fun _ => h95.trans (by norm_num)⟩
  | hybrid =>
      obtain ⟨h0, h95⟩ := hybrid_correction_bounds wavelength thickness ht.le _ hb0
      exact ⟨⟨h0, h95.trans (by norm_num)⟩, fun _ => h95.trans (by norm_num)⟩

/-- Witness for the amended C1 at the hybrid method, silicon substrate,
10 μm wavelength, 5 μm thickness. -/
theorem emissivity_with_corrections_bounds_witness :
    (0 ≤ corrected_calculate_emissivity .hybrid .silicon 10 5 ∧
     corrected_calculate_emissivity .hybrid .silicon 10 5 ≤ 1) ∧
    (CorrectionMethod.hybrid ≠ CorrectionMethod.literature →
     corrected_calculate_emissivity .hybrid .silicon 10 5 ≤ 0.98) :=
  emissivity_with_corrections_bounds .hybrid .silicon 10 5 (by norm_num) (by norm_num)

/-- Evaluation rule for `interp1d` at an in-range point bracketed at index `i`. -/
theorem interp1d_eval (xs ys : List ℚ) (x : ℚ) (i : ℕ) (x1 x2 y1 y2 : ℚ)
    (h0 : ¬ x < xs.headD 0) (h1 : ¬ xs.getLastD 0 < x)
    (hi : xs.findIdx (fun w => decide (x ≤ w)) = i) (hi0 : i ≠ 0)
    (hx1 : xs.getD (i - 1) 0 = x1) (hx2 : xs.getD i 0 = x2)
    (hy1 : ys.getD (i - 1) 0 = y1) (hy2 : ys.getD i 0 = y2) :
    interp1d xs ys x = y1 + (y2 - y1) * (x - x1) / (x2 - x1) := by
  rw [interp1d, if_neg h0, if_neg h1]
  simp only [hi, if_neg hi0, hx1, hx2, hy1, hy2]

/-- The interpolated extinction coefficient at the tabulated wavelength
12.002 μm is exactly the tabulated sample 0.244. -/
theorem k_interp_at_12002 : k_interp (q 12002 3) = q 244 3 := by
  have h0 : ¬ (q 12002 3 : ℚ) < wavelengths_real.headD 0 := by
    rw [wavelengths_head]; decide
  have h1 : ¬ wavelengths_real.getLastD 0 < q 12002 3 := by
    rw [wavelengths_last]; decide
  have hi : wavelengths_real.findIdx (fun w => decide ((q 12002 3 : ℚ) ≤ w)) = 573 := by
    decide
  have hx1 : wavelengths_real.getD 572 0 = q 11892 3 := by decide
  have hx2 : wavelengths_real.getD 573 0 = q 12002 3 := by decide
  have hy1 : k_real.getD 572 0 = q 227 3 := by decide
  have hy2 : k_real.getD 573 0 = q 244 3 := by decide
  rw [k_interp, interp1d_eval wavelengths_real k_real _ 573 _ _ _ _ h0 h1 hi
    (by norm_num) hx1 hx2 hy1 hy2]
  rw [q_def, q_def, q_def, q_def]
  norm_num

/-- The silicon model's fully absorbed thick-film branch in the window band. -/
theorem silicon_thick_absorbing (wavelength thickness n k alpha : ℚ)
    (h8 : 8 ≤ wavelength) (h13 : wavelength ≤ 13) (hk : 0.1 < k)
    (ht5 : ¬ thickness < 5) (ha : 0 < alpha) (hd : 2 * (1 / alpha) < thickness) :
    silicon_substrate_model wavelength thickness n k alpha = 0.92 := by
  unfold silicon_substrate_model
  rw [if_neg (by rintro ⟨-, h2⟩; linarith), if_pos ⟨h8, h13⟩, if_pos hk, if_neg ht5,
    if_pos (show 2 * (if 0 < alpha then 1 / alpha else 1000) < thickness by
      rw [if_pos ha]; exact hd)]

/-- The literature correction's full window-band remap for λ > 10 and
thickness ≥ 3. -/
theorem literature_correction_full_remap (wavelength thickness : ℚ) (b : ℝ)
    (h8 : 8 ≤ wavelength) (h13 : wavelength ≤ 13)
    (h10 : ¬ wavelength ≤ 10) (ht3 : ¬ thickness < 3) :
    literature_correction wavelength thickness b =
      0.88 + (b - 0.3) / (0.7 - 0.3) * (0.95 - 0.88) := by
  simp only [literature_correction, if_pos (⟨h8, h13⟩ : 8 ≤ wavelength ∧ wavelength ≤ 13),
    if_neg h10, if_neg ht3]

/-- C1 counterexample: with the `literature` correction, at wavelength
12.002 μm (a tabulated point, where k = 0.244 > 0.1) and thickness 10 μm the
returned emissivity is 0.9885, strictly above 0.98. -/
theorem emissivity_range_counterexample :
    0.98 < corrected_calculate_emissivity .literature .silicon 12.002 10 := by
  have h12 : (12.002 : ℚ) = q 12002 3 := by rw [q_def]; norm_num
  rw [h12]
  show 0.98 < literature_correction (q 12002 3) 10
    (calculate_emissivity_physical_model .silicon (q 12002 3) 10)
  have h8 : (8 : ℚ) ≤ q 12002 3 := by rw [q_def]; norm_num
  have h13 : q 12002 3 ≤ 13 := by rw [q_def]; norm_num
  have h10 : ¬ (q 12002 3 : ℚ) ≤ 10 := by rw [q_def]; norm_num
  have hbase : calculate_emissivity_physical_model .silicon (q 12002 3) 10 = 0.92 := by
    simp only [calculate_emissivity_physical_model, k_interp_at_12002]
    have hpos : (0 : ℚ) < q 12002 3 := by rw [q_def]; norm_num
    rw [if_pos hpos]
    rw [silicon_thick_absorbing (q 12002 3) 10 (n_interp (q 12002 3)) (q 244 3)
      (4 * np_pi * q 244 3 / q 12002 3) h8 h13
      (by rw [q_def]; norm_num)
      (by norm_num)
      (by rw [np_pi, q_def, q_def, q_def]; positivity)
      (by rw [np_pi, q_def, q_def, q_def]; norm_num)]
    rw [max_eq_left (by norm_num), min_eq_left (by norm_num)]
  rw [hbase, literature_correction_full_remap (q 12002 3) 10 _ h8 h13 h10 (by norm_num)]
  norm_num

/-- The literature-calibrated model's emissivity is nonnegative for positive
thickness. -/
theorem calibrated_emissivity_nonneg (wavelength thickness : ℚ) (ht : 0 < thickness) :
    0 ≤ calibrated_calculate_emissivity wavelength thickness := by
  obtain ⟨hb0, hb98⟩ := base_emissivity_bounds .silicon wavelength thickness
  obtain ⟨hh0, hh95⟩ := hybrid_correction_bounds wavelength thickness ht.le _ hb0
  have hbase0 : 0 ≤ corrected_calculate_emissivity .hybrid .silicon wavelength thickness :=
    hh0
  simp only [calibrated_calculate_emissivity]
  split_ifs with hwin ht5
  · have ht5R : (thickness : ℝ) < 5 := by exact_mod_cast ht5
    have htR : (0 : ℝ) < (thickness : ℝ) := by exact_mod_cast ht
    refine le_min ?_ (by norm_num)
    have h1 : (0 : ℝ) ≤ (thickness : ℝ) / 5 * 0.92 := by positivity
    have h2 : (0 : ℝ) ≤ (1 - (thickness : ℝ) / 5) *
        corrected_calculate_emissivity .hybrid .silicon wavelength thickness :=
      mul_nonneg (by linarith) hbase0
    linarith
  · exact le_min (by norm_num) (by norm_num)
  · exact hbase0

/-- Band emissivity of the calibrated model is nonnegative for positive
thickness. -/
theorem band_emissivity_nonneg (lambda_min lambda_max thickness : ℚ) (n_points : ℕ)
    (ht : 0 < thickness) :
    0 ≤ calculate_band_emissivity calibrated_calculate_emissivity
      lambda_min lambda_max thickness n_points := by
  unfold calculate_band_emissivity
  apply div_nonneg _ (by positivity)
  apply List.sum_nonneg
  intro x hx
  simp only [List.mem_map] at hx
  obtain ⟨wl, -, rfl⟩ := hx
  exact calibrated_emissivity_nonneg wl thickness ht

/-- C8: the selectivity computed with the `max(solar, 0.01)` floor is at most
window emissivity divided by 0.01 (and in particular finite). -/
theorem selectivity_denominator_floored (thickness : ℚ) (ht : 0 < thickness) :
    optimization_selectivity thickness ≤
      calculate_band_emissivity calibrated_calculate_emissivity 8 13 thickness 30 / 0.01 := by
  unfold optimization_selectivity
  exact div_le_div_of_nonneg_left (band_emissivity_nonneg 8 13 thickness 30 ht)
    (by norm_num) (le_max_right _ _)

/-- Witness for C8 at thickness 10 μm. -/
theorem selectivity_denominator_floored_witness :
    optimization_selectivity 10 ≤
      calculate_band_emissivity calibrated_calculate_emissivity 8 13 10 30 / 0.01 :=
  selectivity_denominator_floored 10 (by norm_num)
